import Mathlib

/-!
Verification of the contract-assignment pipeline: a shallow embedding of
`utils/hash.py`, `utils/define_routing_key.py`, `utils/dynamo.py`,
`utils/rabbitMQ_consumer.py` and `utils/offered_contract.py`, together with
theorems settling the specified properties.

Conventions of the embedding:
* DynamoDB tables are association lists from the primary key to the record;
  `put_item` replaces, a conditional put checks presence first.
* HTTP statuses are kept as the numeric codes the code returns
  (200 = Accepted/Transferred, 409 = Rejected/Conflict, 400 = NotFound).
* `datetime.now()` values are threaded as explicit `now` arguments.
* A broker publish that may raise is an explicit `RouteOutcome` input; an
  exception escaping a handler is `completed := false` in the effect record,
  with all effects that the exception skipped absent.
-/

/-! ### utils/hash.py — canonical JSON serialization and SHA-256 -/

/-- Lowercase hexadecimal digit character for a value below 16 (the alphabet of
Python `hexdigest`). -/
def hexChar (n : Nat) : Char := Char.ofNat (if n < 10 then 48 + n else 87 + n)

/-- Big-endian fixed-width base-16 digit rendering of a natural number. -/
def toHexChars : Nat → Nat → List Char
  | 0, _ => []
  | w + 1, x => toHexChars w (x / 16) ++ [hexChar (x % 16)]

/-- UTF-8 encoding of one character, as byte values (model of `str.encode()`). -/
def utf8Char (c : Char) : List Nat :=
  let n := c.toNat
  if n < 128 then [n]
  else if n < 2048 then [192 + n / 64, 128 + n % 64]
  else if n < 65536 then [224 + n / 4096, 128 + n / 64 % 64, 128 + n % 64]
  else [240 + n / 262144, 128 + n / 4096 % 64, 128 + n / 64 % 64, 128 + n % 64]

/-- UTF-8 encoding of a string as a list of byte values. -/
def utf8Encode (s : String) : List Nat :=
  s.data.foldr (fun c acc => utf8Char c ++ acc) []

/-- Escape of one character inside a JSON string literal, following Python
`json.dumps` with its default `ensure_ascii=True`: printable ASCII other than
quote and backslash is kept, the five short escapes cover the usual control
characters, everything else becomes a `\uXXXX` escape (surrogate pairs above
the basic multilingual plane). -/
def escChar (c : Char) : List Char :=
  let n := c.toNat
  if n = 34 then ['\\', '"']
  else if n = 92 then ['\\', '\\']
  else if n = 10 then ['\\', 'n']
  else if n = 13 then ['\\', 'r']
  else if n = 9 then ['\\', 't']
  else if n = 8 then ['\\', 'b']
  else if n = 12 then ['\\', 'f']
  else if 32 ≤ n ∧ n ≤ 126 then [c]
  else if n < 65536 then '\\' :: 'u' :: toHexChars 4 n
  else
    ('\\' :: 'u' :: toHexChars 4 (55296 + (n - 65536) / 1024)) ++
      ('\\' :: 'u' :: toHexChars 4 (56320 + (n - 65536) % 1024))

/-- JSON rendering of a string, quoted and escaped as `json.dumps` does. -/
def jsonQuote (s : String) : String :=
  "\"" ++ String.mk (s.data.foldr (fun c acc => escChar c ++ acc) []) ++ "\""

/-- A JSON-serializable scalar as used by the dictionaries in `utils/hash.py`. -/
inductive JVal where
  | str (s : String)
  | num (q : ℚ)
  | int (n : Int)
deriving DecidableEq

/-- Rendering of a Python float for JSON output. The exact IEEE-754
shortest-repr digit string is not modelled (the embedding idealizes float
values as rationals); no theorem below depends on this digit string. -/
def renderFloat (q : ℚ) : String :=
  if q.den = 1 then toString q.num ++ ".0" else toString q.num ++ "/" ++ toString q.den

/-- JSON rendering of a scalar value. -/
def renderJVal : JVal → String
  | .str s => jsonQuote s
  | .num q => renderFloat q
  | .int n => toString n

/-- Code-point lexicographic comparison of character lists, as Python compares
strings when sorting dictionary keys. -/
def charListLe : List Char → List Char → Bool
  | [], _ => true
  | _ :: _, [] => false
  | a :: as, b :: bs =>
    if a.toNat < b.toNat then true
    else if b.toNat < a.toNat then false
    else charListLe as bs

/-- Code-point lexicographic comparison of strings. -/
def strLe (a b : String) : Bool := charListLe a.data b.data

/-- Stable insertion of an entry into a key-sorted association list. -/
def insertSorted (p : String × JVal) : List (String × JVal) → List (String × JVal)
  | [] => [p]
  | q :: rest => if strLe p.1 q.1 then p :: q :: rest else q :: insertSorted p rest

/-- Stable sort of dictionary entries by key (model of `sort_keys=True`). -/
def sortByKey (l : List (String × JVal)) : List (String × JVal) :=
  l.foldr insertSorted []

/-- `json.dumps(data, sort_keys=True)` for a flat dictionary of scalars:
key-sorted entries with the default `", "` and `": "` separators. -/
def jsonDumpsSorted (entries : List (String × JVal)) : String :=
  "\x7b" ++
    String.intercalate ", "
      ((sortByKey entries).map (fun p => jsonQuote p.1 ++ ": " ++ renderJVal p.2)) ++
    "\x7d"

/-- Truncation to a 32-bit word. -/
def w32 (x : Nat) : Nat := x % 2 ^ 32

/-- 32-bit modular addition. -/
def wadd (a b : Nat) : Nat := (a + b) % 2 ^ 32

/-- Rotation of a 32-bit word right by `n` places, in plain arithmetic. -/
def rotr (n x : Nat) : Nat := x / 2 ^ n + x % 2 ^ n * 2 ^ (32 - n)

/-- Bitwise complement of a 32-bit word. -/
def wnot (x : Nat) : Nat := Nat.xor x (2 ^ 32 - 1)

/-- SHA-256 big sigma-0. -/
def bigSigma0 (x : Nat) : Nat := Nat.xor (rotr 2 x) (Nat.xor (rotr 13 x) (rotr 22 x))

/-- SHA-256 big sigma-1. -/
def bigSigma1 (x : Nat) : Nat := Nat.xor (rotr 6 x) (Nat.xor (rotr 11 x) (rotr 25 x))

/-- SHA-256 small sigma-0. -/
def smallSigma0 (x : Nat) : Nat := Nat.xor (rotr 7 x) (Nat.xor (rotr 18 x) (x / 2 ^ 3))

/-- SHA-256 small sigma-1. -/
def smallSigma1 (x : Nat) : Nat := Nat.xor (rotr 17 x) (Nat.xor (rotr 19 x) (x / 2 ^ 10))

/-- The sixty-four SHA-256 round constants, written in decimal. -/
def K256 : List Nat :=
  [1116352408, 1899447441, 3049323471, 3921009573, 961987163,
   1508970993, 2453635748, 2870763221, 3624381080, 310598401,
   607225278, 1426881987, 1925078388, 2162078206, 2614888103,
   3248222580, 3835390401, 4022224774, 264347078, 604807628,
   770255983, 1249150122, 1555081692, 1996064986, 2554220882,
   2821834349, 2952996808, 3210313671, 3336571891, 3584528711,
   113926993, 338241895, 666307205, 773529912, 1294757372,
   1396182291, 1695183700, 1986661051, 2177026350, 2456956037,
   2730485921, 2820302411, 3259730800, 3345764771, 3516065817,
   3600352804, 4094571909, 275423344, 430227734, 506948616,
   659060556, 883997877, 958139571, 1322822218, 1537002063,
   1747873779, 1955562222, 2024104815, 2227730452, 2361852424,
   2428436474, 2756734187, 3204031479, 3329325298]

/-- The eight 32-bit variables of the SHA-256 state. -/
structure Hash8 where
  a : Nat
  b : Nat
  c : Nat
  d : Nat
  e : Nat
  f : Nat
  g : Nat
  hh : Nat
deriving DecidableEq

/-- The SHA-256 initial state, written in decimal. -/
def sha256Init : Hash8 :=
  ⟨1779033703, 3144134277, 1013904242, 2773480762,
   1359893119, 2600822924, 528734635, 1541459225⟩

/-- Big-endian fixed-width base-256 byte rendering of a natural number. -/
def beBytes : Nat → Nat → List Nat
  | 0, _ => []
  | w + 1, x => beBytes w (x / 256) ++ [x % 256]

/-- SHA-256 message padding: append `0x80`, zero bytes, and the 64-bit
big-endian bit length, reaching a multiple of 64 bytes. -/
def sha256Pad (msg : List Nat) : List Nat :=
  msg ++ [128] ++ List.replicate ((64 - (msg.length + 9) % 64) % 64) 0 ++
    beBytes 8 (8 * msg.length)

/-- Big-endian 32-bit word from a list of four bytes. -/
def beWord (bs : List Nat) : Nat := bs.foldl (fun a b => a * 256 + b) 0

/-- The sixteen 32-bit words of one 64-byte block. -/
def blockWords (block : List Nat) : List Nat :=
  (List.range 16).map (fun i => beWord ((block.drop (4 * i)).take 4))

/-- Message-schedule extension of sixteen words to sixty-four. -/
def sha256Schedule (ws : List Nat) : List Nat :=
  (List.range 48).foldl
    (fun acc _ =>
      let n := acc.length
      acc ++ [wadd (wadd (acc.getD (n - 16) 0) (smallSigma0 (acc.getD (n - 15) 0)))
                (wadd (acc.getD (n - 7) 0) (smallSigma1 (acc.getD (n - 2) 0)))])
    ws

/-- One round of the SHA-256 compression function. -/
def sha256Round (st : Hash8) (kw : Nat × Nat) : Hash8 :=
  let ch := Nat.xor (Nat.land st.e st.f) (Nat.land (wnot st.e) st.g)
  let temp1 := wadd (wadd (wadd st.hh (bigSigma1 st.e)) (wadd ch kw.1)) kw.2
  let maj := Nat.xor (Nat.xor (Nat.land st.a st.b) (Nat.land st.a st.c)) (Nat.land st.b st.c)
  let temp2 := wadd (bigSigma0 st.a) maj
  ⟨wadd temp1 temp2, st.a, st.b, st.c, wadd st.d temp1, st.e, st.f, st.g⟩

/-- Compression of one 64-byte block into the running hash state. -/
def sha256Block (st : Hash8) (block : List Nat) : Hash8 :=
  let t := (K256.zip (sha256Schedule (blockWords block))).foldl sha256Round st
  ⟨wadd st.a t.a, wadd st.b t.b, wadd st.c t.c, wadd st.d t.d,
   wadd st.e t.e, wadd st.f t.f, wadd st.g t.g, wadd st.hh t.hh⟩

/-- SHA-256 of a byte list, as the final eight-word state. -/
def sha256Bytes (msg : List Nat) : Hash8 :=
  let padded := sha256Pad msg
  ((List.range (padded.length / 64)).map (fun i => (padded.drop (64 * i)).take 64)).foldl
    sha256Block sha256Init

/-- SHA-256 digest of a byte list as a single natural number below `2 ^ 256`. -/
def sha256Nat (msg : List Nat) : Nat :=
  let d := sha256Bytes msg
  ((((((d.a * 2 ^ 32 + d.b) * 2 ^ 32 + d.c) * 2 ^ 32 + d.d) * 2 ^ 32 + d.e) * 2 ^ 32 + d.f) *
        2 ^ 32 + d.g) * 2 ^ 32 + d.hh

/-- `hashlib.sha256(data).hexdigest()`: 64 lowercase hexadecimal characters.
Validated against reference digests of the empty string, `"abc"`, and the
serialized duplicity dictionary. -/
def hexdigest (msg : List Nat) : String := String.mk (toHexChars 64 (sha256Nat msg))

/-- `make_hash(data)` from `utils/hash.py`: key-sorted JSON serialization of
the dictionary, UTF-8 encoded, hashed with SHA-256, in hexadecimal. -/
def make_hash (data : List (String × JVal)) : String :=
  hexdigest (utf8Encode (jsonDumpsSorted data))

/-- A Python scalar as it reaches the hash helpers: the contract fields arrive
either as JSON strings or as integers (`nuContratoCedente` is an `int` in the
validated schema). -/
inductive PyVal where
  | str (s : String)
  | int (n : Int)
deriving DecidableEq

/-- Python `str()` of such a scalar. -/
def pyStr : PyVal → String
  | .str s => s
  | .int n => toString n

/-- The canonical serialization fed to SHA-256 by `make_duplicity_hash`. -/
def dupSerial (nu_contrato_facta nu_contrato_ccb : PyVal) : String :=
  jsonDumpsSorted
    [("nuContratoFacta", .str (pyStr nu_contrato_facta)),
     ("nuContratoCCB", .str (pyStr nu_contrato_ccb))]

/-- `make_duplicity_hash` from `utils/hash.py`: both arguments are coerced with
`str()` before being placed in the two-field dictionary. -/
def make_duplicity_hash (nu_contrato_facta nu_contrato_ccb : PyVal) : String :=
  make_hash
    [("nuContratoFacta", .str (pyStr nu_contrato_facta)),
     ("nuContratoCCB", .str (pyStr nu_contrato_ccb))]

/-- `make_eligiblity_hash` from `utils/hash.py`: the four-field dictionary over
cpf, contract date, total amount and installment count. -/
def make_eligiblity_hash (nu_cpf dt_contrato : String) (vr_total : ℚ) (prazo : Nat) : String :=
  make_hash
    [("nuCpf", .str nu_cpf), ("dtContrato", .str dt_contrato),
     ("vrTotal", .num vr_total), ("prazo", .int prazo)]

/-- Decimal digit test. -/
def isDigit (c : Char) : Bool := 48 ≤ c.toNat && c.toNat ≤ 57

/-- Value of a list of decimal digit characters. -/
def digitsToNat (l : List Char) : Nat := l.foldl (fun a c => a * 10 + (c.toNat - 48)) 0

/-- Exponent part of a Python float literal, applied to mantissa `m`. -/
def pyFloatExp (m : ℚ) (l : List Char) : Option ℚ :=
  let (neg, l1) :=
    match l with
    | '+' :: r => (false, r)
    | '-' :: r => (true, r)
    | r => (false, r)
  let ds := l1.takeWhile isDigit
  if ds = [] ∨ l1.dropWhile isDigit ≠ [] then none
  else some (if neg then m / 10 ^ digitsToNat ds else m * 10 ^ digitsToNat ds)

/-- Python `float()` of a finite decimal literal (optional surrounding spaces,
sign, digits, fraction, exponent), as an exact rational; `none` models the
raised `ValueError`. Binary rounding, `inf`/`nan` and digit underscores are
not modelled; no theorem depends on the parsed value itself. -/
def pyFloat (s : String) : Option ℚ :=
  let l0 := ((s.data.dropWhile (fun c => c == ' ')).reverse.dropWhile (fun c => c == ' ')).reverse
  let (neg, l) :=
    match l0 with
    | '+' :: r => (false, r)
    | '-' :: r => (true, r)
    | r => (false, r)
  let ip := l.takeWhile isDigit
  let l1 := l.dropWhile isDigit
  let (fp, l2) :=
    match l1 with
    | '.' :: r => (r.takeWhile isDigit, r.dropWhile isDigit)
    | r => ([], r)
  if ip = [] ∧ fp = [] then none
  else
    let mant : ℚ := (digitsToNat ip : ℚ) + (digitsToNat fp : ℚ) / 10 ^ fp.length
    let signed := if neg then -mant else mant
    match l2 with
    | [] => some signed
    | 'e' :: r => pyFloatExp signed r
    | 'E' :: r => pyFloatExp signed r
    | _ => none

/-- An installment amount as it appears in the loosely-typed offer payload:
JSON null, a string, or a number. -/
inductive PyAmt where
  | null
  | str (s : String)
  | num (q : ℚ)
deriving DecidableEq

/-- Python truthiness of such a value. -/
def pyTruthy : PyAmt → Bool
  | .null => false
  | .str s => s ≠ ""
  | .num q => q ≠ 0

/-- Python `float()` of such a value (`float(None)` raises). -/
def pyFloatAmt : PyAmt → Option ℚ
  | .null => none
  | .str s => pyFloat s
  | .num q => some q

/-- `float(installment.vrParcela if installment.vrParcela else 0)`: a falsy
amount contributes zero, otherwise the value is converted. -/
def installmentAmount (v : PyAmt) : Option ℚ :=
  if pyTruthy v then pyFloatAmt v else some 0

/-- An installment of the validated insert payload (`PortionItem` in
`file/schemes/portion_payload.py`); `vrParcela` is a schema-coerced float,
idealized as a rational. -/
structure PortionItem where
  vrParcela : ℚ
deriving DecidableEq

/-- The contract section of the validated insert payload (only the fields the
hashing code reads; `nuContratoCedente` is an `int` in the schema). -/
structure ContractsItem where
  nuContratoCedente : Int
  nuContratoCCB : String
  dtContrato : String
deriving DecidableEq

/-- The client section of the validated insert payload. -/
structure ClientItem where
  nuCpf : String
deriving DecidableEq

/-- The validated insert payload (`ValidationPayload`), restricted to the
fields read by `generate_hash`. -/
structure ValidationPayload where
  contrato : ContractsItem
  cliente : ClientItem
  parcela : List PortionItem
deriving DecidableEq

/-- `generate_hash(payload)` from `utils/hash.py`: accumulates
`float(installment.vrParcela if installment.vrParcela else 0)` over the
installments, then builds the duplicity and eligibility hashes. On the
schema's float field the falsy guard maps `0.0` to `0`, preserving the
value. -/
def generate_hash (payload : ValidationPayload) : String × String :=
  let total_amount :=
    payload.parcela.foldl
      (fun acc installment =>
        acc + (if installment.vrParcela ≠ 0 then installment.vrParcela else 0))
      0
  (make_duplicity_hash (.int payload.contrato.nuContratoCedente)
      (.str payload.contrato.nuContratoCCB),
   make_eligiblity_hash payload.cliente.nuCpf payload.contrato.dtContrato total_amount
      payload.parcela.length)

/-- The dictionary-shaped offer payload, restricted to the fields read by
`generate_hash_oferta`. -/
structure OfertaPayload where
  nuContratoCedente : PyVal
  nuContratoCCB : PyVal
  nuCpf : String
  dtContrato : String
  parcela : List PyAmt
deriving DecidableEq

/-- The accumulation loop of `generate_hash_oferta`; `none` models an
exception raised by `float()` on an unparseable amount. -/
def totalAmountOferta (acc : ℚ) : List PyAmt → Option ℚ
  | [] => some acc
  | v :: rest =>
    match installmentAmount v with
    | some q => totalAmountOferta (acc + q) rest
    | none => none

/-- `generate_hash_oferta(payload)` from `utils/hash.py`: the dict-access
variant used by the offer route. -/
def generate_hash_oferta (payload : OfertaPayload) : Option (String × String) :=
  match totalAmountOferta 0 payload.parcela with
  | none => none
  | some total_amount =>
    some (make_duplicity_hash payload.nuContratoCedente payload.nuContratoCCB,
      make_eligiblity_hash payload.nuCpf payload.dtContrato total_amount
        payload.parcela.length)

/-! ### utils/define_routing_key.py -/

/-- `define_routing_key` from `utils/define_routing_key.py`: the configured
allow-list (`settings.ROUTING_KEYS`, already parsed) is passed explicitly; an
unknown key falls back to the constant `"precessao"`. -/
def define_routing_key (list_routing_keys : List String) (routing_key : String) : String :=
  if routing_key ∈ list_routing_keys then routing_key else "precessao"

/-- `verify_routing_key` from `utils/define_routing_key.py`. -/
def verify_routing_key (list_routing_keys : List String) (routing_key : String) : Bool :=
  if routing_key ∈ list_routing_keys then true else false

/-! ### utils/dynamo.py — tables and operations -/

/-- Lookup by primary key in a table. -/
def lookupT {R : Type} (k : String) : List (String × R) → Option R
  | [] => none
  | p :: rest => if p.1 = k then some p.2 else lookupT k rest

/-- Removal of a primary key from a table. -/
def removeT {R : Type} (k : String) : List (String × R) → List (String × R)
  | [] => []
  | p :: rest => if p.1 = k then removeT k rest else p :: removeT k rest

/-- Unconditional `put_item`: replaces any record under the key. -/
def putT {R : Type} (k : String) (v : R) (t : List (String × R)) : List (String × R) :=
  (k, v) :: removeT k t

/-- A record of the `inserir_contrato` table (the DedupLedger), keyed by
`ud_hash_contrato`. -/
structure DuplicityRecord where
  tx_nu_contrato : PyVal
  tx_nome_cedente : String
  tx_nome_cessionario : String
  dt_data_insercao : String
  dt_data_atualizacao : Option String
deriving DecidableEq

/-- A record of the `recusa_contrato` table; the generated `id` primary key is
left implicit (records are only ever appended). -/
structure RejectedRecord where
  ud_hash_contrato : String
  tx_nu_contrato : PyVal
  tx_nome_cedente : String
  en_motivo_recusa : Nat
  tx_nome_cessionario : String
  dt_data_recusa : String
deriving DecidableEq

/-- A record of the `detentor_contrato` table (the OwnershipLedger), keyed by
`ud_hash_contrato`. `tx_detentor` is optional because the consumer's offer
path passes `None` for the new holder; `tx_nu_contrato` is optional because an
upserting `update_item` creates items without it. -/
structure HolderRecord where
  tx_detentor : Option String
  tx_nu_contrato : Option PyVal
  dt_data_atualizacao : String
deriving DecidableEq

/-- `DynamoDBClient.insert_rejected_contract`: appends the companion record
with the same key fields and the fixed rejection reason `1`. -/
def insert_rejected_contract (rejected : List RejectedRecord) (nuContratoCedente : PyVal)
    (cessionario : String) (duplicity_hash : String) (cedente : String) (now : String) :
    List RejectedRecord :=
  rejected ++
    [{ ud_hash_contrato := duplicity_hash, tx_nu_contrato := nuContratoCedente,
       tx_nome_cedente := cedente, en_motivo_recusa := 1, tx_nome_cessionario := cessionario,
       dt_data_recusa := now }]

/-- Result of `insert_contract_dynamo`: the HTTP status together with the two
affected stores. -/
structure InsertOutcome where
  status : Nat
  table : List (String × DuplicityRecord)
  rejected : List RejectedRecord
deriving DecidableEq

/-- `DynamoDBClient.insert_contract_dynamo`: conditional put guarded by
`attribute_not_exists(ud_hash_contrato)`. On the conditional-check failure the
companion rejected record is written and 409 returned; otherwise the record is
created and 200 returned. -/
def insert_contract_dynamo (table : List (String × DuplicityRecord))
    (rejected : List RejectedRecord) (nuContratoCedente : PyVal) (cessionario : String)
    (duplicity_hash : String) (cedente : String) (now : String) : InsertOutcome :=
  match lookupT duplicity_hash table with
  | some _ =>
    { status := 409, table := table,
      rejected :=
        insert_rejected_contract rejected nuContratoCedente cessionario duplicity_hash cedente
          now }
  | none =>
    { status := 200,
      table :=
        putT duplicity_hash
          { tx_nu_contrato := nuContratoCedente, tx_nome_cedente := cedente,
            tx_nome_cessionario := cessionario, dt_data_insercao := now,
            dt_data_atualizacao := none }
          table,
      rejected := rejected }

/-- `DynamoDBClient.delete_item`: deletion by primary key (idempotent). -/
def delete_item {R : Type} (table : List (String × R)) (primary_key : String) :
    List (String × R) :=
  removeT primary_key table

/-- Python `str.lower()` restricted to ASCII case mapping. -/
def pyLower (s : String) : String := String.mk (s.data.map Char.toLower)

/-- Python `str()` of a value that may be `None` (`str(None)` is `"None"`). -/
def pyStrOpt : Option String → String
  | none => "None"
  | some s => s

/-- `DynamoDBClient.update_contract_holder`: `update_item` setting
`tx_detentor` and `dt_data_atualizacao`; DynamoDB upserts when the key is
absent. -/
def update_contract_holder (table : List (String × HolderRecord)) (duplicity_hash : String)
    (holder : Option String) (now : String) : List (String × HolderRecord) :=
  match lookupT duplicity_hash table with
  | some item =>
    putT duplicity_hash
      { item with tx_detentor := holder, dt_data_atualizacao := now } table
  | none =>
    putT duplicity_hash
      { tx_detentor := holder, tx_nu_contrato := none, dt_data_atualizacao := now } table

/-- Result of `offered_contract_dynamo`. -/
structure OfferOutcome where
  status : Nat
  table : List (String × HolderRecord)
deriving DecidableEq

/-- `DynamoDBClient.offered_contract_dynamo`: reads the holder record; absent
key gives 400; a case-insensitive holder mismatch gives 409 with no mutation;
a match updates the holder via `update_contract_holder` and gives 200.
`nu_contrato` is only interpolated into log lines. The `cessionario` parameter
defaults to `None` in the source and is therefore optional here. -/
def offered_contract_dynamo (table : List (String × HolderRecord)) (duplicity_hash : String)
    (cedente : String) (nu_contrato : PyVal) (cessionario : Option String) (now : String) :
    OfferOutcome :=
  match lookupT duplicity_hash table with
  | some item =>
    if pyLower (pyStrOpt item.tx_detentor) = pyLower cedente then
      { status := 200, table := update_contract_holder table duplicity_hash cessionario now }
    else
      { status := 409, table := table }
  | none => { status := 400, table := table }

/-- `DynamoDBClient.insert_contract_holder`: unconditional put establishing
initial ownership. -/
def insert_contract_holder (table : List (String × HolderRecord)) (duplicity_hash : String)
    (cessionario : String) (nu_contrato : PyVal) (now : String) :
    List (String × HolderRecord) :=
  putT duplicity_hash
    { tx_detentor := some cessionario, tx_nu_contrato := some nu_contrato,
      dt_data_atualizacao := now }
    table

/-! ### Consumer and handlers -/

/-- Behavior of the broker publish inside `Router.send_to_queue`: it either
succeeds or raises. -/
inductive RouteOutcome where
  | ok
  | fail
deriving DecidableEq

/-- Observable effects of `process_response_and_route`: destinations routed to,
history action codes appended, and whether the call completed without an
escaping exception. -/
structure RouteHist where
  routed : List String
  history : List Nat
  completed : Bool
deriving DecidableEq

namespace Consumer

/-- `process_response_and_route`, defined identically in
`utils/rabbitMQ_consumer.py` and `utils/offered_contract.py`: on status 200 it
routes to the payload's `cessionario` and then appends `operation_type`; if
`Router.send_to_queue` raises, the exception escapes before the history write,
so nothing is appended; on any other status it appends `operation_type + 1`
without routing. The `if payload` guard is modelled as always-truthy, since
every consumed message carries a non-empty payload dictionary. -/
def process_response_and_route (status : Nat) (assignee : String) (route : RouteOutcome)
    (operation_type : Nat) : RouteHist :=
  if status = 200 then
    match route with
    | .ok => { routed := [assignee], history := [operation_type], completed := true }
    | .fail => { routed := [], history := [], completed := false }
  else { routed := [], history := [operation_type + 1], completed := true }

/-- Result of the consumer's insert handler. -/
structure InsertHandled where
  table : List (String × DuplicityRecord)
  rejected : List RejectedRecord
  effects : RouteHist
deriving DecidableEq

/-- `RabbitMQConsumer.handle_insert_operation`: conditional dedup insert, then
`process_response_and_route` with `operation_type=1`. -/
def handle_insert_operation (table : List (String × DuplicityRecord))
    (rejected : List RejectedRecord) (nuContratoCedente : PyVal) (cessionario : String)
    (hash_duplicity : String) (cedente : String) (route : RouteOutcome) (now : String) :
    InsertHandled :=
  let r := insert_contract_dynamo table rejected nuContratoCedente cessionario hash_duplicity
    cedente now
  { table := r.table, rejected := r.rejected,
    effects := process_response_and_route r.status cessionario route 1 }

/-- Result of the consumer's offer handler. -/
structure OfferHandled where
  table : List (String × HolderRecord)
  effects : RouteHist
deriving DecidableEq

/-- `RabbitMQConsumer.handle_offered_operation`: calls
`offered_contract_dynamo(hash_duplicity, cedente, cessionario)` with only three
positional arguments, so `cessionario` lands in the `nu_contrato` parameter and
the `cessionario` parameter keeps its default `None`; then
`process_response_and_route` with `operation_type=3`. -/
def handle_offered_operation (table : List (String × HolderRecord)) (hash_duplicity : String)
    (cedente : String) (cessionario : String) (route : RouteOutcome) (now : String) :
    OfferHandled :=
  let r := offered_contract_dynamo table hash_duplicity cedente (.str cessionario) none now
  { table := r.table, effects := process_response_and_route r.status cessionario route 3 }

/-- Result of the eligibility callback. -/
structure EligibilityHandled where
  holderTable : List (String × HolderRecord)
  dupTable : List (String × DuplicityRecord)
  history : List Nat
deriving DecidableEq

/-- `RabbitMQConsumer.validate_eligibility`: recomputes the duplicity hash from
the message's contract numbers; on `statusElegibilidade` true it establishes
ownership (history code 1), on false it deletes the dedup record (history
code 3). -/
def validate_eligibility (holderTable : List (String × HolderRecord))
    (dupTable : List (String × DuplicityRecord)) (nuContratoFacta nuContratoCCB : PyVal)
    (cessionario : String) (statusElegibilidade : Bool) (now : String) : EligibilityHandled :=
  let hash_duplicity := make_duplicity_hash nuContratoFacta nuContratoCCB
  if statusElegibilidade then
    { holderTable :=
        insert_contract_holder holderTable hash_duplicity cessionario nuContratoFacta now,
      dupTable := dupTable, history := [1] }
  else
    { holderTable := holderTable, dupTable := delete_item dupTable hash_duplicity,
      history := [3] }

end Consumer

namespace Oferta

/-- Result of the HTTP offer handler, with its effect trace: `ledgerReads`
counts `get_item` calls against the ownership table. -/
structure OfferedResult where
  status : Nat
  table : List (String × HolderRecord)
  ledgerReads : Nat
  routed : List String
  history : List Nat
  completed : Bool
deriving DecidableEq

/-- `handle_offered_operation` from `utils/offered_contract.py`: rejects an
unregistered `payload['cessionario']` with 400 before any ledger access;
otherwise transfers via `offered_contract_dynamo` (here with the contract
number and the new holder both passed), and on success routes and appends
history code 1 (inside its local `process_response_and_route`, identical to the
consumer's) followed by code 6. `criado_por` is written into
`payload['cedente']` before routing, affecting only the routed message body. -/
def handle_offered_operation (list_routing_keys : List String)
    (table : List (String × HolderRecord)) (payloadCessionario : String) (criado_por : String)
    (nuContratoCedente : PyVal) (hash_duplicity : String) (cedente : String)
    (cessionario : String) (route : RouteOutcome) (now : String) : OfferedResult :=
  if verify_routing_key list_routing_keys payloadCessionario = false then
    { status := 400, table := table, ledgerReads := 0, routed := [], history := [],
      completed := true }
  else
    let r := offered_contract_dynamo table hash_duplicity cedente nuContratoCedente
      (some cessionario) now
    if r.status = 200 then
      let ph := Consumer.process_response_and_route r.status payloadCessionario route 1
      if ph.completed then
        { status := r.status, table := r.table, ledgerReads := 1, routed := ph.routed,
          history := ph.history ++ [6], completed := true }
      else
        { status := r.status, table := r.table, ledgerReads := 1, routed := ph.routed,
          history := ph.history, completed := false }
    else
      { status := r.status, table := r.table, ledgerReads := 1, routed := [], history := [],
        completed := true }

end Oferta

/-! ### Association-table lemmas -/

theorem lookupT_removeT_self {R : Type} (k : String) (t : List (String × R)) :
    lookupT k (removeT k t) = none := by
  induction t with
  | nil => rfl
  | cons p rest ih =>
    by_cases hp : p.1 = k
    · simpa [removeT, hp] using ih
    · simpa [removeT, lookupT, hp] using ih

theorem lookupT_removeT_ne {R : Type} (k k' : String) (t : List (String × R)) (hne : k' ≠ k) :
    lookupT k' (removeT k t) = lookupT k' t := by
  induction t with
  | nil => rfl
  | cons p rest ih =>
    by_cases hp : p.1 = k
    · have hk : k ≠ k' := fun hc => hne hc.symm
      simp [removeT, lookupT, hp, hk, ih]
    · simp [removeT, lookupT, hp, ih]

theorem lookupT_putT_self {R : Type} (k : String) (v : R) (t : List (String × R)) :
    lookupT k (putT k v t) = some v := by
  simp [putT, lookupT]

theorem lookupT_putT_ne {R : Type} (k k' : String) (v : R) (t : List (String × R))
    (hne : k' ≠ k) : lookupT k' (putT k v t) = lookupT k' t := by
  have hk : k ≠ k' := fun hc => hne hc.symm
  simp [putT, lookupT, hk, lookupT_removeT_ne k k' t hne]

/-! ### Claim theorems -/

/-- Claim C1: `insert_contract_dynamo` succeeds (200, record persisted) exactly
when no record exists for the duplicity hash; when a record exists it returns
409, appends a companion rejected record with the same key fields and the
fixed reason code 1, and leaves the table (hence the existing record)
unchanged. -/
theorem C1_dedup_conditional_insert (table : List (String × DuplicityRecord))
    (rejected : List RejectedRecord) (nuC : PyVal) (cess h ced now : String) :
    ((insert_contract_dynamo table rejected nuC cess h ced now).status = 200 ↔
      lookupT h table = none) ∧
    (lookupT h table = none →
      insert_contract_dynamo table rejected nuC cess h ced now =
        { status := 200, table := putT h ⟨nuC, ced, cess, now, none⟩ table,
          rejected := rejected } ∧
      lookupT h (insert_contract_dynamo table rejected nuC cess h ced now).table =
        some ⟨nuC, ced, cess, now, none⟩) ∧
    (∀ old, lookupT h table = some old →
      insert_contract_dynamo table rejected nuC cess h ced now =
        { status := 409, table := table,
          rejected := rejected ++ [⟨h, nuC, ced, 1, cess, now⟩] }) := by
  refine ⟨?_, fun hnone => ?_, fun old hsome => ?_⟩
  · cases hl : lookupT h table <;> simp [insert_contract_dynamo, hl]
  · simp [insert_contract_dynamo, hnone, lookupT_putT_self]
  · simp [insert_contract_dynamo, hsome, insert_rejected_contract]

/-- Concrete run of claim C1: a first insert is accepted and persisted, a
second identical insert is rejected and writes the companion record. -/
theorem C1_dedup_conditional_insert_witness :
    insert_contract_dynamo [] [] (.str "123") "bankB" "k" "bankA" "t1" =
      { status := 200, table := putT "k" ⟨.str "123", "bankA", "bankB", "t1", none⟩ [],
        rejected := [] } ∧
    insert_contract_dynamo [("k", ⟨.str "123", "bankA", "bankB", "t1", none⟩)] []
        (.str "123") "bankB" "k" "bankA" "t2" =
      { status := 409, table := [("k", ⟨.str "123", "bankA", "bankB", "t1", none⟩)],
        rejected := [⟨"k", .str "123", "bankA", 1, "bankB", "t2"⟩] } :=
  ⟨((C1_dedup_conditional_insert [] [] (.str "123") "bankB" "k" "bankA" "t1").2.1 rfl).1,
   (C1_dedup_conditional_insert [("k", ⟨.str "123", "bankA", "bankB", "t1", none⟩)] []
      (.str "123") "bankB" "k" "bankA" "t2").2.2 _ rfl⟩

/-- Claim C2: `offered_contract_dynamo` returns 400 when no ownership record
exists; returns 409 without mutation when the case-insensitively compared
holder differs from the requester; otherwise returns 200 with the holder
updated to the new holder and the update timestamp set, other keys
untouched. -/
theorem C2_ownership_transfer (table : List (String × HolderRecord)) (h requester : String)
    (nuC : PyVal) (newHolder now : String) :
    (lookupT h table = none →
      offered_contract_dynamo table h requester nuC (some newHolder) now =
        { status := 400, table := table }) ∧
    (∀ item, lookupT h table = some item →
      (pyLower (pyStrOpt item.tx_detentor) ≠ pyLower requester →
        offered_contract_dynamo table h requester nuC (some newHolder) now =
          { status := 409, table := table }) ∧
      (pyLower (pyStrOpt item.tx_detentor) = pyLower requester →
        (offered_contract_dynamo table h requester nuC (some newHolder) now).status = 200 ∧
        lookupT h (offered_contract_dynamo table h requester nuC (some newHolder) now).table =
          some ⟨some newHolder, item.tx_nu_contrato, now⟩ ∧
        ∀ k, k ≠ h →
          lookupT k
              (offered_contract_dynamo table h requester nuC (some newHolder) now).table =
            lookupT k table)) := by
  refine ⟨fun hnone => by simp [offered_contract_dynamo, hnone],
    fun item hit => ⟨fun hne => by simp [offered_contract_dynamo, hit, hne], fun hmatch => ?_⟩⟩
  cases item with
  | mk det nuc dt =>
    refine ⟨by simp [offered_contract_dynamo, hit, hmatch], ?_, fun k hk => ?_⟩
    · simp [offered_contract_dynamo, hit, hmatch, update_contract_holder, lookupT_putT_self]
    · simp [offered_contract_dynamo, hit, hmatch, update_contract_holder,
        lookupT_putT_ne h k _ _ hk]

/-- Concrete run of claim C2: a missing record gives 400, a holder mismatch
gives 409 with no change, a matching holder gives 200 with the holder
replaced and the timestamp refreshed. -/
theorem C2_ownership_transfer_witness :
    offered_contract_dynamo [] "k" "bankB" (.str "77") (some "bankC") "t1" =
      { status := 400, table := [] } ∧
    offered_contract_dynamo [("k", ⟨some "bankA", none, "t0"⟩)] "k" "bankC" (.str "77")
        (some "bankD") "t1" =
      { status := 409, table := [("k", ⟨some "bankA", none, "t0"⟩)] } ∧
    (offered_contract_dynamo [("k", ⟨some "bankA", none, "t0"⟩)] "k" "bankA" (.str "77")
        (some "bankC") "t1").status = 200 ∧
    lookupT "k"
        (offered_contract_dynamo [("k", ⟨some "bankA", none, "t0"⟩)] "k" "bankA" (.str "77")
          (some "bankC") "t1").table =
      some ⟨some "bankC", none, "t1"⟩ :=
  ⟨(C2_ownership_transfer [] "k" "bankB" (.str "77") "bankC" "t1").1 rfl,
   ((C2_ownership_transfer [("k", ⟨some "bankA", none, "t0"⟩)] "k" "bankC" (.str "77") "bankD"
        "t1").2 _ rfl).1 (by decide),
   ((C2_ownership_transfer [("k", ⟨some "bankA", none, "t0"⟩)] "k" "bankA" (.str "77") "bankC"
        "t1").2 _ rfl).2 (by decide) |>.1,
   ((C2_ownership_transfer [("k", ⟨some "bankA", none, "t0"⟩)] "k" "bankA" (.str "77") "bankC"
        "t1").2 _ rfl).2 (by decide) |>.2.1⟩

/-- Claim C6: `define_routing_key` returns the destination itself exactly on
(case-sensitive) membership in the allow-list, and the fixed fallback constant
`"precessao"` otherwise; being a total function of its inputs, it never fails,
only defaults. -/
theorem C6_routing_key_resolution (keys : List String) (x : String) :
    (x ∈ keys → define_routing_key keys x = x) ∧
    (x ∉ keys → define_routing_key keys x = "precessao") ∧
    (define_routing_key keys x = x ∨ define_routing_key keys x = "precessao") := by
  refine ⟨fun hx => by simp [define_routing_key, hx],
    fun hx => by simp [define_routing_key, hx], ?_⟩
  by_cases hx : x ∈ keys <;> simp [define_routing_key, hx]

/-- Concrete run of claim C6: a registered destination is returned unchanged,
an unregistered one falls back. -/
theorem C6_routing_key_resolution_witness :
    define_routing_key ["facta", "qitech"] "facta" = "facta" ∧
    define_routing_key ["facta", "qitech"] "unregistered-party" = "precessao" :=
  ⟨(C6_routing_key_resolution ["facta", "qitech"] "facta").1 (by decide),
   (C6_routing_key_resolution ["facta", "qitech"] "unregistered-party").2.1 (by decide)⟩

/-- Claim C8: when the requested assignee is not in the routing allow-list, the
HTTP offer handler returns 400 with the ownership table untouched, zero ledger
reads, nothing routed and no history written. -/
theorem C8_unknown_assignee_rejected (keys : List String)
    (table : List (String × HolderRecord)) (pc criado : String) (nuC : PyVal)
    (h ced cess : String) (route : RouteOutcome) (now : String)
    (hreg : verify_routing_key keys pc = false) :
    Oferta.handle_offered_operation keys table pc criado nuC h ced cess route now =
      { status := 400, table := table, ledgerReads := 0, routed := [], history := [],
        completed := true } := by
  simp [Oferta.handle_offered_operation, hreg]

/-- Concrete run of claim C8: an unregistered assignee short-circuits to 400
before any ledger access or routing. -/
theorem C8_unknown_assignee_rejected_witness :
    Oferta.handle_offered_operation ["facta"] [("k", ⟨some "bankA", none, "t0"⟩)]
        "unregistered-party" "bankA" (.str "77") "k" "bankA" "unregistered-party" .ok "t1" =
      { status := 400, table := [("k", ⟨some "bankA", none, "t0"⟩)], ledgerReads := 0,
        routed := [], history := [], completed := true } :=
  C8_unknown_assignee_rejected ["facta"] [("k", ⟨some "bankA", none, "t0"⟩)]
    "unregistered-party" "bankA" (.str "77") "k" "bankA" "unregistered-party" .ok "t1"
    (by decide)

/-- Claim C9: in the consumer's offer path, when the requester matches the
current holder, the ownership record's holder is updated to `None` — not to
the requested new holder — because `cessionario` is passed positionally into
`nu_contrato` and the `cessionario` parameter keeps its default `None`. -/
theorem C9_offered_holder_becomes_none (table : List (String × HolderRecord))
    (h ced cess now : String) (route : RouteOutcome) (item : HolderRecord)
    (hit : lookupT h table = some item)
    (hmatch : pyLower (pyStrOpt item.tx_detentor) = pyLower ced) :
    lookupT h (Consumer.handle_offered_operation table h ced cess route now).table =
      some ⟨none, item.tx_nu_contrato, now⟩ ∧
    ∀ rec, lookupT h (Consumer.handle_offered_operation table h ced cess route now).table =
      some rec → rec.tx_detentor ≠ some cess := by
  cases item with
  | mk det nuc dt =>
    have hl : lookupT h (Consumer.handle_offered_operation table h ced cess route now).table =
        some ⟨none, nuc, now⟩ := by
      simp [Consumer.handle_offered_operation, offered_contract_dynamo, hit, hmatch,
        update_contract_holder, lookupT_putT_self]
    exact ⟨hl, fun rec hrec => by
      rw [hl] at hrec
      cases hrec
      simp⟩

/-- Concrete run of claim C9: `bankA` offers to `bankB` while holding the
contract, and the stored holder becomes `None`. -/
theorem C9_offered_holder_becomes_none_witness :
    lookupT "k"
        (Consumer.handle_offered_operation [("k", ⟨some "bankA", none, "t0"⟩)] "k" "bankA"
          "bankB" .ok "t1").table =
      some ⟨none, none, "t1"⟩ :=
  (C9_offered_holder_becomes_none [("k", ⟨some "bankA", none, "t0"⟩)] "k" "bankA" "bankB" "t1"
    .ok ⟨some "bankA", none, "t0"⟩ rfl rfl).1

/-- Claim C10: `make_duplicity_hash` coerces both arguments with `str()`
before serializing, so any value and its string form hash identically — in
particular a numeric contract number and its decimal-string form. -/
theorem C10_str_coercion (a b : PyVal) :
    make_duplicity_hash a b = make_duplicity_hash (.str (pyStr a)) (.str (pyStr b)) := rfl

/-- Claim C3 fails on the code: for a consumed offered message whose transfer
is accepted and routed successfully, the consumer writes history code 3, not
the claimed 6; and when the ledger operation is accepted but routing fails, no
history entry at all is appended (in particular not the incremented code 2). -/
theorem C3_history_code_counterexample :
    (Consumer.handle_offered_operation [("k", ⟨some "bankA", none, "t0"⟩)] "k" "bankA" "bankB"
        .ok "t1").effects.history = [3] ∧
    (Consumer.process_response_and_route 200 "bankB" .fail 1).history = [] := by
  constructor
  · rfl
  · rfl

/-- Claim C3 (amended): when the ledger operation is accepted and routing
succeeds, the consumer appends the happy-path code — 1 for insert but 3 for
offered (the HTTP offer handler instead appends 1 and then 6); when routing
fails the exception propagates and no history entry is appended; the
happy-path code incremented by one is appended exactly when the ledger
operation is rejected. -/
theorem C3_history_codes_amended :
    (∀ table rejected nuC cess h ced now, lookupT h table = none →
      (Consumer.handle_insert_operation table rejected nuC cess h ced .ok now).effects =
        { routed := [cess], history := [1], completed := true }) ∧
    (∀ table h ced cess now item, lookupT h table = some item →
      pyLower (pyStrOpt item.tx_detentor) = pyLower ced →
      (Consumer.handle_offered_operation table h ced cess .ok now).effects =
        { routed := [cess], history := [3], completed := true }) ∧
    (∀ assignee opType, Consumer.process_response_and_route 200 assignee .fail opType =
      { routed := [], history := [], completed := false }) ∧
    (∀ status assignee route opType, status ≠ 200 →
      Consumer.process_response_and_route status assignee route opType =
        { routed := [], history := [opType + 1], completed := true }) ∧
    (∀ keys table pc criado nuC h ced cess now, verify_routing_key keys pc = true →
      ∀ item, lookupT h table = some item →
        pyLower (pyStrOpt item.tx_detentor) = pyLower ced →
        (Oferta.handle_offered_operation keys table pc criado nuC h ced cess .ok now).history =
          [1, 6] ∧
        (Oferta.handle_offered_operation keys table pc criado nuC h ced cess .fail
            now).history = []) := by
  refine ⟨fun table rejected nuC cess h ced now hfree => ?_,
    fun table h ced cess now item hit hmatch => ?_,
    fun assignee opType => rfl,
    fun status assignee route opType hs => ?_,
    fun keys table pc criado nuC h ced cess now hreg item hit hmatch => ⟨?_, ?_⟩⟩
  · simp [Consumer.handle_insert_operation, insert_contract_dynamo, hfree,
      Consumer.process_response_and_route]
  · simp [Consumer.handle_offered_operation, offered_contract_dynamo, hit, hmatch,
      Consumer.process_response_and_route]
  · cases route <;> simp [Consumer.process_response_and_route, hs]
  · simp [Oferta.handle_offered_operation, hreg, offered_contract_dynamo, hit, hmatch,
      Consumer.process_response_and_route]
  · simp [Oferta.handle_offered_operation, hreg, offered_contract_dynamo, hit, hmatch,
      Consumer.process_response_and_route]

/-- Concrete runs of the amended claim C3: accepted-and-routed insert gives
code 1, the consumer's accepted offer gives 3, a rejected insert gives 2, the
HTTP offer handler gives 1 then 6, and a routing failure leaves no entry. -/
theorem C3_history_codes_amended_witness :
    (Consumer.handle_insert_operation [] [] (.str "123") "bankB" "k" "bankA" .ok
        "t1").effects =
      { routed := ["bankB"], history := [1], completed := true } ∧
    (Consumer.handle_offered_operation [("k", ⟨some "bankA", none, "t0"⟩)] "k" "bankA" "bankB"
        .ok "t1").effects =
      { routed := ["bankB"], history := [3], completed := true } ∧
    Consumer.process_response_and_route 200 "bankB" .fail 1 =
      { routed := [], history := [], completed := false } ∧
    Consumer.process_response_and_route 409 "bankB" .ok 1 =
      { routed := [], history := [2], completed := true } ∧
    (Oferta.handle_offered_operation ["bankB"] [("k", ⟨some "bankA", none, "t0"⟩)] "bankB"
        "bankA" (.str "77") "k" "bankA" "bankB" .ok "t1").history = [1, 6] :=
  ⟨C3_history_codes_amended.1 [] [] (.str "123") "bankB" "k" "bankA" "t1" rfl,
   C3_history_codes_amended.2.1 [("k", ⟨some "bankA", none, "t0"⟩)] "k" "bankA" "bankB" "t1"
     ⟨some "bankA", none, "t0"⟩ rfl rfl,
   C3_history_codes_amended.2.2.1 "bankB" 1,
   C3_history_codes_amended.2.2.2.1 409 "bankB" .ok 1 (by decide),
   (C3_history_codes_amended.2.2.2.2 ["bankB"] [("k", ⟨some "bankA", none, "t0"⟩)] "bankB"
      "bankA" (.str "77") "k" "bankA" "bankB" "t1" (by decide) ⟨some "bankA", none, "t0"⟩ rfl
      rfl).1⟩

/-- Claim C4: after an accepted insert for the duplicity hash of a
contract/ccb pair, processing an eligibility-false message for the same pair
deletes the dedup record, and a subsequent insert of the same pair is accepted
again. -/
theorem C4_eligibility_removal (table : List (String × DuplicityRecord))
    (rejected : List RejectedRecord) (holderT : List (String × HolderRecord)) (a b nuC : PyVal)
    (cess ced cessE now1 now2 now3 : String)
    (hfree : lookupT (make_duplicity_hash a b) table = none) :
    (insert_contract_dynamo table rejected nuC cess (make_duplicity_hash a b) ced
        now1).status = 200 ∧
    lookupT (make_duplicity_hash a b)
        (Consumer.validate_eligibility holderT
          (insert_contract_dynamo table rejected nuC cess (make_duplicity_hash a b) ced
            now1).table a b cessE false now2).dupTable = none ∧
    (insert_contract_dynamo
        (Consumer.validate_eligibility holderT
          (insert_contract_dynamo table rejected nuC cess (make_duplicity_hash a b) ced
            now1).table a b cessE false now2).dupTable
        rejected nuC cess (make_duplicity_hash a b) ced now3).status = 200 := by
  have h2 : lookupT (make_duplicity_hash a b)
      (Consumer.validate_eligibility holderT
        (insert_contract_dynamo table rejected nuC cess (make_duplicity_hash a b) ced
          now1).table a b cessE false now2).dupTable = none := by
    simp [Consumer.validate_eligibility, delete_item, lookupT_removeT_self]
  refine ⟨by simp [insert_contract_dynamo, hfree], h2, ?_⟩
  generalize hT : (Consumer.validate_eligibility holderT
      (insert_contract_dynamo table rejected nuC cess (make_duplicity_hash a b) ced
        now1).table a b cessE false now2).dupTable = T at h2 ⊢
  simp [insert_contract_dynamo, h2]

/-- Concrete run of claim C4 on contract 123 / ccb 456 from the empty store:
insert accepted, eligibility-false removes the record, re-insert accepted. -/
theorem C4_eligibility_removal_witness :
    (insert_contract_dynamo [] [] (.str "123") "bankB" (make_duplicity_hash (.str "123")
        (.str "456")) "bankA" "t1").status = 200 ∧
    lookupT (make_duplicity_hash (.str "123") (.str "456"))
        (Consumer.validate_eligibility []
          (insert_contract_dynamo [] [] (.str "123") "bankB"
            (make_duplicity_hash (.str "123") (.str "456")) "bankA" "t1").table
          (.str "123") (.str "456") "bankB" false "t2").dupTable = none ∧
    (insert_contract_dynamo
        (Consumer.validate_eligibility []
          (insert_contract_dynamo [] [] (.str "123") "bankB"
            (make_duplicity_hash (.str "123") (.str "456")) "bankA" "t1").table
          (.str "123") (.str "456") "bankB" false "t2").dupTable
        [] (.str "123") "bankB" (make_duplicity_hash (.str "123") (.str "456")) "bankA"
        "t3").status = 200 :=
  C4_eligibility_removal [] [] [] (.str "123") (.str "456") (.str "123") "bankB" "bankA"
    "bankB" "t1" "t2" "t3" rfl

/-! ### Digest lemmas for claim C5 -/

theorem toHexChars_length (w : Nat) : ∀ x : Nat, (toHexChars w x).length = w := by
  induction w with
  | zero => intro x; rfl
  | succ n ih => intro x; simp [toHexChars, ih]

theorem hexChar_inj_fin : ∀ a b : Fin 16, hexChar a.val = hexChar b.val → a = b := by decide

theorem toHexChars_inj (w : Nat) : ∀ x y : Nat, x < 16 ^ w → y < 16 ^ w →
    toHexChars w x = toHexChars w y → x = y := by
  induction w with
  | zero => intro x y hx hy _; omega
  | succ n ih =>
    intro x y hx hy heq
    simp only [toHexChars] at heq
    obtain ⟨h1, h2⟩ := List.append_inj heq (by simp [toHexChars_length])
    have hxd : x / 16 < 16 ^ n := by
      have hx' : x < 16 ^ n * 16 := by
        calc x < 16 ^ (n + 1) := hx
        _ = 16 ^ n * 16 := by rw [pow_succ]
      exact (Nat.div_lt_iff_lt_mul (by norm_num)).mpr hx'
    have hyd : y / 16 < 16 ^ n := by
      have hy' : y < 16 ^ n * 16 := by
        calc y < 16 ^ (n + 1) := hy
        _ = 16 ^ n * 16 := by rw [pow_succ]
      exact (Nat.div_lt_iff_lt_mul (by norm_num)).mpr hy'
    have hdiv : x / 16 = y / 16 := ih _ _ hxd hyd h1
    have hmod : x % 16 = y % 16 := by
      have hc : hexChar (x % 16) = hexChar (y % 16) := by simpa using h2
      have h16x : x % 16 < 16 := Nat.mod_lt _ (by norm_num)
      have h16y : y % 16 < 16 := Nat.mod_lt _ (by norm_num)
      exact congrArg Fin.val (hexChar_inj_fin ⟨x % 16, h16x⟩ ⟨y % 16, h16y⟩ hc)
    omega

theorem wadd_lt (a b : Nat) : wadd a b < 2 ^ 32 := Nat.mod_lt _ (by norm_num)

theorem sha256Block_lt (st : Hash8) (block : List Nat) :
    (sha256Block st block).a < 2 ^ 32 ∧ (sha256Block st block).b < 2 ^ 32 ∧
    (sha256Block st block).c < 2 ^ 32 ∧ (sha256Block st block).d < 2 ^ 32 ∧
    (sha256Block st block).e < 2 ^ 32 ∧ (sha256Block st block).f < 2 ^ 32 ∧
    (sha256Block st block).g < 2 ^ 32 ∧ (sha256Block st block).hh < 2 ^ 32 :=
  ⟨wadd_lt _ _, wadd_lt _ _, wadd_lt _ _, wadd_lt _ _, wadd_lt _ _, wadd_lt _ _, wadd_lt _ _,
   wadd_lt _ _⟩

theorem foldl_sha256Block_lt (bl : List (List Nat)) : ∀ st : Hash8,
    (st.a < 2 ^ 32 ∧ st.b < 2 ^ 32 ∧ st.c < 2 ^ 32 ∧ st.d < 2 ^ 32 ∧ st.e < 2 ^ 32 ∧
      st.f < 2 ^ 32 ∧ st.g < 2 ^ 32 ∧ st.hh < 2 ^ 32) →
    ((bl.foldl sha256Block st).a < 2 ^ 32 ∧ (bl.foldl sha256Block st).b < 2 ^ 32 ∧
      (bl.foldl sha256Block st).c < 2 ^ 32 ∧ (bl.foldl sha256Block st).d < 2 ^ 32 ∧
      (bl.foldl sha256Block st).e < 2 ^ 32 ∧ (bl.foldl sha256Block st).f < 2 ^ 32 ∧
      (bl.foldl sha256Block st).g < 2 ^ 32 ∧ (bl.foldl sha256Block st).hh < 2 ^ 32) := by
  induction bl with
  | nil => intro st hst; exact hst
  | cons bhead btail ih =>
    intro st hst
    rw [List.foldl_cons]
    exact ih _ (sha256Block_lt st bhead)

theorem sha256Bytes_lt (msg : List Nat) :
    (sha256Bytes msg).a < 2 ^ 32 ∧ (sha256Bytes msg).b < 2 ^ 32 ∧
    (sha256Bytes msg).c < 2 ^ 32 ∧ (sha256Bytes msg).d < 2 ^ 32 ∧
    (sha256Bytes msg).e < 2 ^ 32 ∧ (sha256Bytes msg).f < 2 ^ 32 ∧
    (sha256Bytes msg).g < 2 ^ 32 ∧ (sha256Bytes msg).hh < 2 ^ 32 := by
  unfold sha256Bytes
  exact foldl_sha256Block_lt _ sha256Init (by norm_num [sha256Init])

theorem digest_step (n : Nat) {u v : Nat} (hu : u < 2 ^ n) (hv : v < 2 ^ 32) :
    u * 2 ^ 32 + v < 2 ^ (n + 32) := by
  calc u * 2 ^ 32 + v < u * 2 ^ 32 + 2 ^ 32 := Nat.add_lt_add_left hv _
  _ = (u + 1) * 2 ^ 32 := by ring
  _ ≤ 2 ^ n * 2 ^ 32 := Nat.mul_le_mul_right _ hu
  _ = 2 ^ (n + 32) := by rw [← pow_add]

theorem sha256Nat_lt (msg : List Nat) : sha256Nat msg < 2 ^ 256 := by
  obtain ⟨h1, h2, h3, h4, h5, h6, h7, h8⟩ := sha256Bytes_lt msg
  have s1 := digest_step 32 h1 h2
  have s2 := digest_step 64 (by simpa using s1) h3
  have s3 := digest_step 96 (by simpa using s2) h4
  have s4 := digest_step 128 (by simpa using s3) h5
  have s5 := digest_step 160 (by simpa using s4) h6
  have s6 := digest_step 192 (by simpa using s5) h7
  have s7 := digest_step 224 (by simpa using s6) h8
  have hfin : sha256Nat msg =
      (((((((sha256Bytes msg).a * 2 ^ 32 + (sha256Bytes msg).b) * 2 ^ 32 +
        (sha256Bytes msg).c) * 2 ^ 32 + (sha256Bytes msg).d) * 2 ^ 32 +
        (sha256Bytes msg).e) * 2 ^ 32 + (sha256Bytes msg).f) * 2 ^ 32 +
        (sha256Bytes msg).g) * 2 ^ 32 + (sha256Bytes msg).hh := rfl
  rw [hfin]
  simpa using s7

theorem make_duplicity_hash_collision (a b c : PyVal)
    (h : make_duplicity_hash a b = make_duplicity_hash a c) :
    sha256Nat (utf8Encode (dupSerial a b)) = sha256Nat (utf8Encode (dupSerial a c)) := by
  have hdata : toHexChars 64 (sha256Nat (utf8Encode (dupSerial a b))) =
      toHexChars 64 (sha256Nat (utf8Encode (dupSerial a c))) := congrArg String.data h
  have h16 : (16 : ℕ) ^ 64 = 2 ^ 256 := by norm_num
  have hb : sha256Nat (utf8Encode (dupSerial a b)) < 16 ^ 64 := by
    rw [h16]; exact sha256Nat_lt _
  have hc : sha256Nat (utf8Encode (dupSerial a c)) < 16 ^ 64 := by
    rw [h16]; exact sha256Nat_lt _
  exact toHexChars_inj 64 _ _ hb hc hdata

theorem make_hash_order_pair (fa cb : String) :
    make_hash [("nuContratoFacta", JVal.str fa), ("nuContratoCCB", JVal.str cb)] =
      make_hash [("nuContratoCCB", JVal.str cb), ("nuContratoFacta", JVal.str fa)] := rfl

/-- Claim C5 fails on the code as stated: `make_duplicity_hash` has a finite
range (64 hexadecimal characters), so over the infinitely many distinct inputs
there exist `b ≠ c` with `duplicityHash(a,b) = duplicityHash(a,c)` — strict
injectivity cannot hold for a 256-bit digest. -/
theorem C5_duplicity_injectivity_counterexample :
    ∃ a b c : PyVal, b ≠ c ∧ make_duplicity_hash a b = make_duplicity_hash a c := by
  obtain ⟨n, m, hnm, heq⟩ :=
    Finite.exists_ne_map_eq_of_infinite
      (fun k : ℕ =>
        (⟨sha256Nat (utf8Encode (dupSerial (.str "a")
            (.str (String.mk (List.replicate k 'x'))))), sha256Nat_lt _⟩ : Fin (2 ^ 256)))
  refine ⟨.str "a", .str (String.mk (List.replicate n 'x')),
    .str (String.mk (List.replicate m 'x')), ?_, ?_⟩
  · intro hcon
    apply hnm
    injection hcon with h1
    injection h1 with h2
    simpa using congrArg List.length h2
  · have hv : sha256Nat (utf8Encode (dupSerial (.str "a")
        (.str (String.mk (List.replicate n 'x'))))) =
        sha256Nat (utf8Encode (dupSerial (.str "a")
          (.str (String.mk (List.replicate m 'x'))))) := congrArg Fin.val heq
    have e : ∀ s : String, make_duplicity_hash (.str "a") (.str s) =
        String.mk (toHexChars 64 (sha256Nat (utf8Encode (dupSerial (.str "a") (.str s))))) :=
      fun s => rfl
    rw [e, e, hv]

/-- Claim C5 (amended): `make_duplicity_hash` is deterministic and invariant to
the key insertion order of the caller's two-field dictionary; for `b ≠ c`
equal outputs can only arise from a SHA-256 collision — equal hex digests
force equal SHA-256 values of the two canonical serializations. -/
theorem C5_duplicity_hash_amended :
    (∀ a b : PyVal, make_duplicity_hash a b = make_duplicity_hash a b) ∧
    (∀ fa cb : String,
      make_hash [("nuContratoFacta", JVal.str fa), ("nuContratoCCB", JVal.str cb)] =
        make_hash [("nuContratoCCB", JVal.str cb), ("nuContratoFacta", JVal.str fa)]) ∧
    (∀ a b c : PyVal, make_duplicity_hash a b = make_duplicity_hash a c →
      sha256Nat (utf8Encode (dupSerial a b)) = sha256Nat (utf8Encode (dupSerial a c))) :=
  ⟨fun _ _ => rfl, make_hash_order_pair, make_duplicity_hash_collision⟩

/-- Concrete application of the amended claim C5 at equal inputs. -/
theorem C5_duplicity_hash_amended_witness :
    sha256Nat (utf8Encode (dupSerial (.str "1") (.str "2"))) =
      sha256Nat (utf8Encode (dupSerial (.str "1") (.str "2"))) :=
  C5_duplicity_hash_amended.2.2 (.str "1") (.str "2") (.str "2") rfl

/-! ### Fold lemmas for claim C7 -/

theorem foldl_add_eq_sum {α : Type} (g : α → ℚ) (l : List α) : ∀ c : ℚ,
    l.foldl (fun acc x => acc + g x) c = c + (l.map g).sum := by
  induction l with
  | nil => intro c; simp
  | cons x rest ih => intro c; simp [List.foldl_cons, ih, add_assoc]

theorem totalAmountOferta_eq_sum : ∀ l : List PyAmt,
    (∀ v ∈ l, pyTruthy v = true → (pyFloatAmt v).isSome = true) → ∀ acc : ℚ,
    totalAmountOferta acc l =
      some (acc +
        (l.map (fun v => if pyTruthy v then (pyFloatAmt v).getD 0 else 0)).sum) := by
  intro l
  induction l with
  | nil => intro _ acc; simp [totalAmountOferta]
  | cons v rest ih =>
    intro hall acc
    have hrest := ih (fun w hw hq => hall w (List.mem_cons_of_mem _ hw) hq)
    by_cases ht : pyTruthy v = true
    · obtain ⟨q, hq⟩ := Option.isSome_iff_exists.mp (hall v (List.mem_cons_self _ _) ht)
      simp [totalAmountOferta, installmentAmount, ht, hq, hrest, add_assoc]
    · have hf : pyTruthy v = false := by simpa using ht
      simp [totalAmountOferta, installmentAmount, hf, hrest]

/-- Claim C7: the eligibility hash is computed over exactly the four fields
cpf, contract date, total installment amount and installment count, where the
total is the sum of the installment amounts with falsy (missing or empty)
amounts counted as zero, and the count is the number of installments — for
both the schema-validated insert payload and the dict-shaped offer payload
(the latter whenever every truthy amount parses, i.e. no exception). -/
theorem C7_eligibility_hash_fields :
    (∀ p : ValidationPayload,
      (generate_hash p).2 =
        make_eligiblity_hash p.cliente.nuCpf p.contrato.dtContrato
          ((p.parcela.map (fun i => i.vrParcela)).sum) p.parcela.length) ∧
    (∀ p : OfertaPayload,
      (∀ v ∈ p.parcela, pyTruthy v = true → (pyFloatAmt v).isSome = true) →
      generate_hash_oferta p =
        some (make_duplicity_hash p.nuContratoCedente p.nuContratoCCB,
          make_eligiblity_hash p.nuCpf p.dtContrato
            ((p.parcela.map
              (fun v => if pyTruthy v then (pyFloatAmt v).getD 0 else 0)).sum)
            p.parcela.length)) := by
  constructor
  · intro p
    have hfun : (fun (acc : ℚ) (i : PortionItem) =>
        acc + (if i.vrParcela ≠ 0 then i.vrParcela else 0)) =
        fun (acc : ℚ) (i : PortionItem) => acc + i.vrParcela := by
      funext acc i
      by_cases hv : i.vrParcela = 0 <;> simp [hv]
    have hsum : p.parcela.foldl
        (fun acc installment =>
          acc + (if installment.vrParcela ≠ 0 then installment.vrParcela else 0)) 0 =
        (p.parcela.map (fun i => i.vrParcela)).sum := by
      rw [hfun, foldl_add_eq_sum (fun i : PortionItem => i.vrParcela) p.parcela 0, zero_add]
    have hgoal : (generate_hash p).2 =
        make_eligiblity_hash p.cliente.nuCpf p.contrato.dtContrato
          (p.parcela.foldl
            (fun acc installment =>
              acc + (if installment.vrParcela ≠ 0 then installment.vrParcela else 0)) 0)
          p.parcela.length := rfl
    rw [hgoal, hsum]
  · intro p hall
    simp [generate_hash_oferta, totalAmountOferta_eq_sum p.parcela hall 0]

/-- Concrete run of claim C7 on an offer payload with one parsed amount and
one null amount. -/
theorem C7_eligibility_hash_fields_witness :
    generate_hash_oferta ⟨.str "123", .str "456", "11122233344", "2024-01-02",
        [.str "10.5", .null]⟩ =
      some (make_duplicity_hash (.str "123") (.str "456"),
        make_eligiblity_hash "11122233344" "2024-01-02"
          (([PyAmt.str "10.5", PyAmt.null].map
            (fun v => if pyTruthy v then (pyFloatAmt v).getD 0 else 0)).sum) 2) :=
  C7_eligibility_hash_fields.2
    ⟨.str "123", .str "456", "11122233344", "2024-01-02", [.str "10.5", .null]⟩ (by decide)
